import Mathlib

/-!
# Verification of the `up_fmap` FMAP planning adapter

Shallow embedding of `src/up_fmap/fmap_planner.py` (class `FMAPsolver`):
the command-line construction (`_manage_parameters`, `_get_cmd_ma`), the
outcome classification (`_result_status`) and the orchestration method
`solve_ma`, together with proofs of the specification claims.

External collaborators (the PDDL writer, the subprocess, the filesystem,
the plan parser `_plan_from_file` inherited from `PDDLPlanner`) are modelled
as an explicit environment `Env` supplying their observable behaviour; the
adapter's own control flow is translated statement by statement.
-/

namespace UpFmap

/-- The subset of `PlanGenerationResultStatus` (upstream enum) relevant here. -/
inductive Status where
  | SOLVED_SATISFICING
  | SOLVED_OPTIMALLY
  | UNSOLVABLE_PROVEN
  | UNSOLVABLE_INCOMPLETELY
  | TIMEOUT
  | MEMOUT
  | INTERNAL_ERROR
  | UNSUPPORTED_PROBLEM
  | INTERMEDIATE
deriving DecidableEq, Repr

/-- Log levels of `unified_planning.engines.results.LogLevel`. -/
inductive LogLevel where
  | DEBUG
  | INFO
  | WARNING
  | ERROR
deriving DecidableEq, Repr

/-- A log message: a level and the message text. -/
structure LogMessage where
  level : LogLevel
  message : String
deriving DecidableEq, Repr

/-- A parsed plan.  Opaque to the adapter (produced by `_plan_from_file`);
we only track its identity. -/
structure Plan where
  idx : Nat
deriving DecidableEq, Repr

/-- An agent of a multi-agent problem: the adapter only reads its `name`. -/
structure Agent where
  name : String
deriving DecidableEq, Repr

/-- A multi-agent problem as seen by the adapter: whether the value is an
instance of `MultiAgentProblem` (for the `isinstance` assertion) and its
`agents` sequence in declared iteration order. -/
structure Problem where
  isMultiAgent : Bool
  agents : List Agent
deriving DecidableEq, Repr

/-- The solver object's fields set in `FMAPsolver.__init__`:
`search_algorithm` and `heuristic`, both optional strings. -/
structure FMAPsolver where
  search_algorithm : Option String
  heuristic : Option String
deriving DecidableEq, Repr

/-- `FMAPsolver._manage_parameters`: appends `-s <search_algorithm>` when
`search_algorithm is not None`, then `-h <heuristic>` when
`heuristic is not None`. -/
def manage_parameters (self : FMAPsolver) (command : List String) : List String :=
  let command :=
    match self.search_algorithm with
    | some s => command ++ ["-s", s]
    | none => command
  match self.heuristic with
  | some h => command ++ ["-h", h]
  | none => command

/-- `FMAPsolver._get_cmd_ma`: the base `java -jar <jar>` invocation, then for
each agent (in `problem.agents` order) an `extend` with
`[f"{ag.name}_type", f"ma_pddl_{domain_filename}{ag.name}_domain.pddl"]`
followed by an `extend` with
`[f"ma_pddl_{problem_filename}{ag.name}_problem.pddl"]`, then
`_manage_parameters`.  The jar path (computed by `pkg_resources` at run
time) is passed in as `jar_path`; the `plan_filename` argument is accepted
exactly as in the source. -/
def get_cmd_ma (self : FMAPsolver) (problem : Problem) (jar_path : String)
    (domain_filename problem_filename plan_filename : String) : List String :=
  let base_command := ["java", "-jar", jar_path]
  let directory := "ma_pddl_"
  let base_command := problem.agents.foldl
    (fun cmd ag =>
      (cmd ++ [ag.name ++ "_type",
               directory ++ domain_filename ++ ag.name ++ "_domain.pddl"])
        ++ [directory ++ problem_filename ++ ag.name ++ "_problem.pddl"])
    base_command
  manage_parameters self base_command

/-- `FMAPsolver._result_status`.  `retval` is an `Option Int` because the
Python value can be `None` (a `Popen.returncode` that was never set);
Python's `retval != 0` is true for `None`, i.e. exactly when
`retval ≠ some 0`. -/
def result_status (plan : Option Plan) (retval : Option Int) : Status :=
  if retval ≠ some 0 then Status.INTERNAL_ERROR
  else if plan = none then Status.UNSOLVABLE_PROVEN
  else Status.SOLVED_SATISFICING

/-- `os.path.join(a, b)` for the cases used by `solve_ma`: if `b` is
absolute it wins; otherwise a separator is inserted unless `a` is empty or
already ends with one. -/
def os_path_join (a b : String) : String :=
  if b.data.head? = some '/' then b
  else if a = "" ∨ a.data.getLast? = some '/' then a ++ b
  else a ++ "/" ++ b

/-- Behaviour of `process.communicate(timeout=timeout)` in the
non-streaming branch: it either completes with an exit code and decoded
stdout/stderr, or raises `subprocess.TimeoutExpired`. -/
inductive CommOutcome where
  | completed (exit_code : Int) (stdout stderr : String)
  | timedOut
deriving DecidableEq, Repr

/-- Result of the streaming `run_command_asyncio` / `run_command_posix_select`
collaborators: `(timeout_occurred, (proc_out, proc_err), retval)`. -/
structure ExecRes where
  timeout_occurred : Bool
  out : List String
  err : List String
  retval : Option Int
deriving DecidableEq, Repr

/-- The environment of one `solve_ma` call: everything the adapter observes
from its collaborators (temp-dir path, jar location, subprocess behaviour,
plan-file existence at the `os.path.isfile` check, and the plan
`_plan_from_file` would parse from that file). -/
structure Env where
  tempdir : String
  jar_path : String
  output_stream : Bool
  comm : CommOutcome
  exec : ExecRes
  plan_file_exists : Bool
  parsed_plan : Plan
deriving DecidableEq, Repr

/-- The result object `PlanGenerationResult(status, plan, log_messages,
engine_name)`. -/
structure PlanGenerationResult where
  status : Status
  plan : Option Plan
  log_messages : List LogMessage
  engine_name : String
deriving DecidableEq, Repr

/-- Observable side effects of one `solve_ma` call, for the resource /
fail-fast claims: temp-dir acquisition and removal, the writer calls, and
the subprocess launch. -/
inductive Event where
  | acquireTempDir
  | writeDomain
  | writeProblem
  | launchProcess
  | removeTempDir
deriving DecidableEq, Repr

/-- The `(timeout_occurred, proc_out, proc_err, retval)` quadruple that the
branch on `output_stream` produces (lines 142-182 of the source): in the
non-streaming branch a completed `communicate` yields the decoded pair and
`process.returncode`, while `TimeoutExpired` leaves the initial empty lists
and `process.returncode` still `None`; in the streaming branch the
collaborator's `exec_res` is unpacked. -/
def observed (env : Env) : Bool × List String × List String × Option Int :=
  if env.output_stream = false then
    match env.comm with
    | CommOutcome.completed code o e => (false, [o], [e], some code)
    | CommOutcome.timedOut => (true, [], [], none)
  else
    (env.exec.timeout_occurred, env.exec.out, env.exec.err, env.exec.retval)

/-- The command line actually built inside `solve_ma` for an environment:
`_get_cmd_ma` applied to the temp-dir-relative
`domain.pddl/` / `problem.pddl/` / `plan.txt` paths. -/
def cmd_of (self : FMAPsolver) (problem : Problem) (env : Env) : List String :=
  get_cmd_ma self problem env.jar_path
    (os_path_join env.tempdir "domain.pddl/")
    (os_path_join env.tempdir "problem.pddl/")
    (os_path_join env.tempdir "plan.txt")

/-- `FMAPsolver.solve_ma`.  Returns the Python outcome (either the
`AssertionError` of the `isinstance` assert, or the `PlanGenerationResult`
together with the — unmodified — solver object) paired with the list of
observable side effects.  The `with tempfile.TemporaryDirectory()` block is
translated by emitting `removeTempDir` at block exit on both return paths
(the early `TIMEOUT` return at line 191 and the fall-through return at line
200 both leave the `with` scope). -/
def solve_ma (self : FMAPsolver) (problem : Problem) (env : Env) :
    Except String (PlanGenerationResult × FMAPsolver) × List Event :=
  if problem.isMultiAgent = false then
    (Except.error "AssertionError", [])
  else
    let plan_filename := os_path_join env.tempdir "plan.txt"
    let _cmd := cmd_of self problem env
    let (timeout_occurred, proc_out, proc_err, retval) := observed env
    let logs : List LogMessage :=
      [⟨LogLevel.INFO, String.join proc_out⟩, ⟨LogLevel.ERROR, String.join proc_err⟩]
    let plan : Option Plan :=
      if env.plan_file_exists then some env.parsed_plan else none
    let events : List Event :=
      [Event.acquireTempDir, Event.writeDomain, Event.writeProblem,
       Event.launchProcess, Event.removeTempDir]
    let _ := plan_filename
    if timeout_occurred = true ∧ retval ≠ some 0 then
      (Except.ok (⟨Status.TIMEOUT, plan, logs, "FMAP"⟩, self), events)
    else
      (Except.ok (⟨result_status plan retval, plan, logs, "FMAP"⟩, self), events)

/-! ## Structure of the constructed command line -/

/-- The three tokens contributed per agent by the loop of `_get_cmd_ma`. -/
def agent_triple (domain_filename problem_filename : String) (ag : Agent) :
    List String :=
  [ag.name ++ "_type",
   "ma_pddl_" ++ domain_filename ++ ag.name ++ "_domain.pddl",
   "ma_pddl_" ++ problem_filename ++ ag.name ++ "_problem.pddl"]

/-- The (possibly empty) flag/value pair contributed by one optional
parameter. -/
def opt_flag (flag : String) : Option String → List String
  | some v => [flag, v]
  | none => []

/-! ## Closed form of `solve_ma` -/

/-- The event trace of every completed `solve_ma` run. -/
def run_events : List Event :=
  [Event.acquireTempDir, Event.writeDomain, Event.writeProblem,
   Event.launchProcess, Event.removeTempDir]

/-- The plan carried by the result: parsed from the plan file iff that file
exists at the `os.path.isfile` check. -/
def plan_of (env : Env) : Option Plan :=
  if env.plan_file_exists then some env.parsed_plan else none

/-- The two log messages appended before classification. -/
def logs_of (env : Env) : List LogMessage :=
  [⟨LogLevel.INFO, String.join (observed env).2.1⟩,
   ⟨LogLevel.ERROR, String.join (observed env).2.2.1⟩]

/-! ## The specification-side classification table -/

/-- The spec's outcome-classification table, transcribed from its words and
evaluated in its strict row order (`timeout ∧ exit ≠ 0` → TIMEOUT;
`exit ≠ 0` → INTERNAL_ERROR; `exit = 0 ∧ no plan file` → UNSOLVABLE_PROVEN;
`exit = 0 ∧ plan file` → SOLVED). -/
def spec_classification (timeout_occurred : Bool) (retval : Option Int)
    (plan_file_produced : Bool) : Status :=
  if timeout_occurred = true ∧ retval ≠ some 0 then Status.TIMEOUT
  else if retval ≠ some 0 then Status.INTERNAL_ERROR
  else if plan_file_produced = false then Status.UNSOLVABLE_PROVEN
  else Status.SOLVED_SATISFICING

/-! ## Helper lemmas -/

lemma manage_parameters_eq (self : FMAPsolver) (cmd : List String) :
    manage_parameters self cmd =
      cmd ++ opt_flag "-s" self.search_algorithm
          ++ opt_flag "-h" self.heuristic := by
  unfold manage_parameters opt_flag
  cases self.search_algorithm <;> cases self.heuristic <;> simp

lemma foldl_agents_eq (dom prob : String) (agents : List Agent)
    (init : List String) :
    agents.foldl
      (fun cmd ag =>
        (cmd ++ [ag.name ++ "_type",
                 "ma_pddl_" ++ dom ++ ag.name ++ "_domain.pddl"])
          ++ ["ma_pddl_" ++ prob ++ ag.name ++ "_problem.pddl"]) init
      = init ++ agents.flatMap (agent_triple dom prob) := by
  induction agents generalizing init with
  | nil => simp
  | cons ag rest ih =>
      rw [List.foldl_cons, ih]
      simp [agent_triple]

/-- The command line of `_get_cmd_ma`, in closed form: base invocation,
one `agent_triple` per agent in order, then the optional flag pairs.  The
`plan_filename` argument does not occur. -/
lemma get_cmd_ma_eq (self : FMAPsolver) (problem : Problem)
    (jar dom prob plan : String) :
    get_cmd_ma self problem jar dom prob plan =
      ["java", "-jar", jar]
        ++ problem.agents.flatMap (agent_triple dom prob)
        ++ opt_flag "-s" self.search_algorithm
        ++ opt_flag "-h" self.heuristic := by
  simp only [get_cmd_ma]
  rw [foldl_agents_eq, manage_parameters_eq]

lemma solve_ma_ok (self : FMAPsolver) (problem : Problem) (env : Env)
    (hma : problem.isMultiAgent = true) :
    solve_ma self problem env =
      (Except.ok
        (⟨if (observed env).1 = true ∧ (observed env).2.2.2 ≠ some 0
            then Status.TIMEOUT
            else result_status (plan_of env) (observed env).2.2.2,
          plan_of env, logs_of env, "FMAP"⟩, self),
       run_events) := by
  rcases hobs : observed env with ⟨tmo, po, pe, rv⟩
  simp only [solve_ma, hma, Bool.true_eq_false, if_false, hobs,
    plan_of, logs_of, run_events]
  split <;> simp

lemma mem_triple_length {dom prob : String} {ag : Agent} {t : String}
    (h : t ∈ agent_triple dom prob ag) : 5 ≤ t.length := by
  have h5 : ("_type" : String).length = 5 := rfl
  have h8 : ("ma_pddl_" : String).length = 8 := rfl
  simp only [agent_triple, List.mem_cons, List.not_mem_nil, or_false] at h
  rcases h with h | h | h <;> subst h <;>
    simp [String.length_append, h5, h8] <;> omega

lemma short_not_mem_cmd (problem : Problem) (jar dom prob t : String)
    (hlen : t.length = 2) (hjar : t ≠ jar) (h1 : t ≠ "java")
    (h2 : t ≠ "-jar") :
    t ∉ ["java", "-jar", jar]
        ++ problem.agents.flatMap (agent_triple dom prob) := by
  intro hmem
  simp only [List.mem_append, List.mem_cons, List.not_mem_nil, or_false,
    List.mem_flatMap] at hmem
  rcases hmem with (h | h | h) | ⟨ag, _, h⟩
  · exact h1 h
  · exact h2 h
  · exact hjar h
  · have := mem_triple_length h
    omega

/-! ## Claim C10: the plan path never reaches the command line

Auxiliary string/list combinatorics: an occurrence of a pattern inside an
append either lies in one side or straddles the boundary, and a pattern
without `'/'` cannot straddle a `'/'` boundary. -/

lemma infix_append_split {α : Type} (p a b : List α) (h : p <:+: a ++ b) :
    p <:+: a ∨ p <:+: b ∨
      ∃ k, 0 < k ∧ k < p.length ∧ p.take k <:+ a ∧ p.drop k <+: b := by
  obtain ⟨s, t, hst⟩ := h
  rw [List.append_assoc] at hst
  rcases List.append_eq_append_iff.mp hst with ⟨s2, ha2, hw2⟩ | ⟨a2, hs2, hb2⟩
  · rcases List.append_eq_append_iff.mp hw2 with ⟨p2, hs2e, ht2⟩ | ⟨q, hp2, hb2⟩
    · refine Or.inl ⟨s, p2, ?_⟩
      rw [ha2, hs2e, List.append_assoc]
    · rcases eq_or_ne s2 [] with rfl | hc0
      · refine Or.inr (Or.inl ⟨[], t, ?_⟩)
        simp only [List.nil_append] at hp2 ⊢
        rw [hb2, hp2]
      · rcases eq_or_ne q [] with rfl | hq0
        · refine Or.inl ⟨s, [], ?_⟩
          rw [List.append_nil] at hp2
          rw [ha2, hp2, List.append_nil]
        · refine Or.inr (Or.inr ⟨s2.length, ?_, ?_, ?_, ?_⟩)
          · exact List.length_pos.mpr hc0
          · rw [hp2, List.length_append]
            have := List.length_pos.mpr hq0
            omega
          · rw [hp2, List.take_left]
            exact ⟨s, ha2.symm⟩
          · rw [hp2, List.drop_left]
            exact ⟨t, hb2.symm⟩
  · refine Or.inr (Or.inl ⟨a2, t, ?_⟩)
    rw [hb2, List.append_assoc]

lemma prefix_cons_cases {p : List Char} {c : Char} {L : List Char}
    (h : p <+: c :: L) : p = [] ∨ ∃ q, p = c :: q := by
  rcases p with _ | ⟨x, p⟩
  · exact Or.inl rfl
  · obtain ⟨t, ht⟩ := h
    simp at ht
    exact Or.inr ⟨p, by rw [ht.1]⟩

lemma infix_slash_split {p a b : List Char} (hns : ('/' : Char) ∉ p)
    (h : p <:+: a ++ '/' :: b) : p <:+: a ∨ p <:+: b := by
  rcases infix_append_split p a ('/' :: b) h with h1 | h1 | ⟨k, hk0, hkl, hta, htd⟩
  · exact Or.inl h1
  · obtain ⟨s, t, hst⟩ := h1
    rcases s with _ | ⟨c, s⟩
    · rcases prefix_cons_cases (show p <+: '/' :: b from ⟨t, by simpa using hst⟩)
        with rfl | ⟨q, rfl⟩
      · exact Or.inl List.nil_infix
      · exact absurd (List.mem_cons_self _ _) hns
    · rw [List.append_assoc] at hst
      simp only [List.cons_append, List.cons.injEq] at hst
      exact Or.inr ⟨s, t, by rw [List.append_assoc]; exact hst.2⟩
  · rcases prefix_cons_cases htd with hnil | ⟨q, hq⟩
    · have hne : p.drop k ≠ [] := by
        simp only [ne_eq, List.drop_eq_nil_iff]
        omega
      exact absurd hnil hne
    · have hmem : ('/' : Char) ∈ p.drop k := by
        rw [hq]; exact List.mem_cons_self _ _
      exact absurd (List.drop_subset _ _ hmem) hns

lemma pat_not_infix_left_concrete {T : List Char}
    (hT : ¬ "plan.txt".data <:+: T) :
    ¬ "plan.txt".data <:+: "ma_pddl_".data ++ T := by
  intro h
  rcases infix_append_split _ _ _ h with h1 | h1 | ⟨k, hk0, hkl, hta, _⟩
  · revert h1; decide
  · exact hT h1
  · have h8 : ("plan.txt".data).length = 8 := rfl
    rw [h8] at hkl
    interval_cases k <;> revert hta <;> decide

lemma pat_not_infix_underscore {N D : List Char}
    (hD : ¬ "plan.txt".data <:+: D) (hDhead : ∃ q, D = '_' :: q)
    (hN : ¬ "plan.txt".data <:+: N) :
    ¬ "plan.txt".data <:+: N ++ D := by
  intro h
  rcases infix_append_split _ _ _ h with h1 | h1 | ⟨k, hk0, hkl, _, htd⟩
  · exact hN h1
  · exact hD h1
  · obtain ⟨q0, rfl⟩ := hDhead
    rcases prefix_cons_cases htd with hnil | ⟨q, hq⟩
    · have h8 : ("plan.txt".data).length = 8 := rfl
      rw [h8] at hkl
      have : ("plan.txt".data.drop k).length = 8 - k := by
        simp [h8]
      rw [hnil] at this
      simp at this
      omega
    · have h8 : ("plan.txt".data).length = 8 := rfl
      rw [h8] at hkl
      interval_cases k <;> simp at hq

lemma pat_not_infix_path_token {T N mid tail : List Char}
    (hT : ¬ "plan.txt".data <:+: T)
    (hN : ¬ "plan.txt".data <:+: N)
    (hmid : ¬ "plan.txt".data <:+: mid)
    (htail : ¬ "plan.txt".data <:+: tail)
    (htail_head : ∃ q, tail = '_' :: q) :
    ¬ "plan.txt".data <:+:
      ("ma_pddl_".data ++ T) ++ '/' :: (mid ++ '/' :: (N ++ tail)) := by
  intro h
  have hns : ('/' : Char) ∉ "plan.txt".data := by decide
  rcases infix_slash_split hns h with h1 | h1
  · exact pat_not_infix_left_concrete hT h1
  · rcases infix_slash_split hns h1 with h2 | h2
    · exact hmid h2
    · exact pat_not_infix_underscore htail htail_head hN h2

lemma os_path_join_plain (a b : String) (h0 : a ≠ "")
    (h1 : a.data.getLast? ≠ some '/') (h2 : b.data.head? ≠ some '/') :
    os_path_join a b = a ++ "/" ++ b := by
  simp [os_path_join, h0, h1, h2]

/-! ## Claim C1: outcome classification -/

/-- C1: the status of every `solve_ma` result equals the spec's
classification table applied to the observed timeout flag, exit code and
plan-file presence; in particular a timeout with exit code 0 is *not*
classified TIMEOUT but by the exit-code-0 rows. -/
theorem claim_C1_classification (self : FMAPsolver) (problem : Problem)
    (env : Env) (r : PlanGenerationResult) (s : FMAPsolver) (ev : List Event)
    (hok : solve_ma self problem env = (Except.ok (r, s), ev)) :
    r.status = spec_classification (observed env).1 (observed env).2.2.2
        env.plan_file_exists
    ∧ ((observed env).1 = true → (observed env).2.2.2 = some 0 →
        r.status ≠ Status.TIMEOUT
        ∧ r.status = (if env.plan_file_exists then Status.SOLVED_SATISFICING
                      else Status.UNSOLVABLE_PROVEN)) := by
  rcases hma : problem.isMultiAgent with _ | _
  · simp [solve_ma, hma] at hok
  · rw [solve_ma_ok self problem env hma] at hok
    have hr : r.status =
        (if (observed env).1 = true ∧ (observed env).2.2.2 ≠ some 0
          then Status.TIMEOUT
          else result_status (plan_of env) (observed env).2.2.2) := by
      have := congrArg Prod.fst hok
      simp at this
      rw [← this.1]
    constructor
    · rw [hr]
      simp only [spec_classification, result_status, plan_of]
      by_cases h0 : (observed env).2.2.2 = some 0 <;>
        by_cases h1 : (observed env).1 = true <;>
        by_cases hex : env.plan_file_exists = true <;>
        simp [h0, h1, hex]
    · intro htmo hrv
      rw [hr, htmo, hrv]
      simp [result_status, plan_of]
      rcases hex : env.plan_file_exists <;> simp

/-- Concrete instantiation of `claim_C1_classification`: exit code 0 with a
plan file present is classified SOLVED_SATISFICING. -/
theorem claim_C1_witness :
    (⟨Status.SOLVED_SATISFICING, some ⟨0⟩,
      [⟨LogLevel.INFO, "out"⟩, ⟨LogLevel.ERROR, "err"⟩], "FMAP"⟩
        : PlanGenerationResult).status =
      spec_classification
        (observed ⟨"/tmp/t", "/opt/FMAP.jar", false,
          CommOutcome.completed 0 "out" "err", ⟨false, [], [], some 0⟩,
          true, ⟨0⟩⟩).1
        (observed ⟨"/tmp/t", "/opt/FMAP.jar", false,
          CommOutcome.completed 0 "out" "err", ⟨false, [], [], some 0⟩,
          true, ⟨0⟩⟩).2.2.2
        true
    ∧ True := by
  refine ⟨?_, trivial⟩
  exact (claim_C1_classification ⟨none, none⟩ ⟨true, [⟨"a1"⟩]⟩
    ⟨"/tmp/t", "/opt/FMAP.jar", false, CommOutcome.completed 0 "out" "err",
      ⟨false, [], [], some 0⟩, true, ⟨0⟩⟩
    ⟨Status.SOLVED_SATISFICING, some ⟨0⟩,
      [⟨LogLevel.INFO, "out"⟩, ⟨LogLevel.ERROR, "err"⟩], "FMAP"⟩
    ⟨none, none⟩ run_events rfl).1

/-! ## Claim C2: command-line shape -/

/-- C2: the command line of `_get_cmd_ma` is the fixed base invocation,
then exactly one three-token group per agent — `<name>_type`, the agent's
domain file path, the agent's problem file path — in the problem's declared
agent order, followed only by the optional `-s`/`-h` flag pairs; the agent
groups contribute exactly `3 * N` tokens for `N` agents. -/
theorem claim_C2_command_shape (self : FMAPsolver) (problem : Problem)
    (jar dom prob plan : String) :
    get_cmd_ma self problem jar dom prob plan =
      ["java", "-jar", jar]
        ++ problem.agents.flatMap (agent_triple dom prob)
        ++ opt_flag "-s" self.search_algorithm
        ++ opt_flag "-h" self.heuristic
    ∧ (problem.agents.flatMap (agent_triple dom prob)).length
        = 3 * problem.agents.length
    ∧ ∀ ag : Agent, agent_triple dom prob ag
        = [ag.name ++ "_type",
           "ma_pddl_" ++ dom ++ ag.name ++ "_domain.pddl",
           "ma_pddl_" ++ prob ++ ag.name ++ "_problem.pddl"] := by
  refine ⟨get_cmd_ma_eq self problem jar dom prob plan, ?_, fun ag => rfl⟩
  induction problem.agents with
  | nil => simp
  | cons ag rest ih =>
      simp only [List.flatMap_cons, List.length_append, ih, List.length_cons]
      simp [agent_triple]
      omega

/-! ## Claim C3: optional flags -/

/-- Counterexample to C3: the source tests `is not None`, not
non-emptiness, so a `search_algorithm` set to the *empty string* does emit
the flag pair `["-s", ""]` — an empty flag pair from an empty parameter,
which the claim says never happens. -/
theorem claim_C3_counterexample :
    manage_parameters ⟨some "", none⟩ [] = ["-s", ""]
    ∧ "-s" ∈ manage_parameters ⟨some "", none⟩ []
    ∧ "" ∈ manage_parameters ⟨some "", none⟩ [] := by
  refine ⟨rfl, ?_, ?_⟩ <;> simp [manage_parameters]

/-- C3 (amended): `_manage_parameters` appends exactly
`opt_flag "-s" search_algorithm ++ opt_flag "-h" heuristic`: a parameter
that is unset (`None`) contributes no token at all — in particular, when
both are unset the full command contains neither `-s` nor `-h` (provided
the jar path is not itself such a flag) — while a parameter set to any
string, the empty string included, emits the flag followed by that string
(the source tests `is not None`, not non-emptiness). -/
theorem claim_C3_amended (self : FMAPsolver) (problem : Problem)
    (jar dom prob plan : String) (hjs : jar ≠ "-s") (hjh : jar ≠ "-h") :
    (∀ cmd, manage_parameters self cmd
        = cmd ++ opt_flag "-s" self.search_algorithm
              ++ opt_flag "-h" self.heuristic)
    ∧ (∀ v, opt_flag "-s" (some v) = ["-s", v])
    ∧ opt_flag "-s" none = []
    ∧ (self.search_algorithm = none → self.heuristic = none →
        "-s" ∉ get_cmd_ma self problem jar dom prob plan
        ∧ "-h" ∉ get_cmd_ma self problem jar dom prob plan) := by
  refine ⟨fun cmd => manage_parameters_eq self cmd, fun v => rfl, rfl,
    fun hs hh => ?_⟩
  rw [get_cmd_ma_eq, hs, hh]
  simp only [opt_flag, List.append_nil]
  exact ⟨short_not_mem_cmd problem jar dom prob "-s" rfl (Ne.symm hjs)
      (by decide) (by decide),
    short_not_mem_cmd problem jar dom prob "-h" rfl (Ne.symm hjh)
      (by decide) (by decide)⟩

/-- Concrete instantiation of `claim_C3_amended`: with both parameters
unset, neither `-s` nor `-h` occurs in a concrete command line. -/
theorem claim_C3_witness :
    "-s" ∉ get_cmd_ma ⟨none, none⟩ ⟨true, [⟨"a1"⟩]⟩ "/opt/FMAP.jar"
        "/tmp/t/domain.pddl/" "/tmp/t/problem.pddl/" "/tmp/t/plan.txt"
    ∧ "-h" ∉ get_cmd_ma ⟨none, none⟩ ⟨true, [⟨"a1"⟩]⟩ "/opt/FMAP.jar"
        "/tmp/t/domain.pddl/" "/tmp/t/problem.pddl/" "/tmp/t/plan.txt" := by
  exact (claim_C3_amended ⟨none, none⟩ ⟨true, [⟨"a1"⟩]⟩ "/opt/FMAP.jar"
    "/tmp/t/domain.pddl/" "/tmp/t/problem.pddl/" "/tmp/t/plan.txt"
    (by decide) (by decide)).2.2.2 rfl rfl

/-! ## Claim C4: no fabricated plan -/

/-- C4: every `solve_ma` result carries a non-absent plan only if the plan
file existed at the `os.path.isfile` check, and an absent plan whenever it
did not — regardless of the result status. -/
theorem claim_C4_no_fabricated_plan (self : FMAPsolver) (problem : Problem)
    (env : Env) (r : PlanGenerationResult) (s : FMAPsolver) (ev : List Event)
    (hok : solve_ma self problem env = (Except.ok (r, s), ev)) :
    (r.plan ≠ none → env.plan_file_exists = true)
    ∧ (env.plan_file_exists = false → r.plan = none) := by
  rcases hma : problem.isMultiAgent with _ | _
  · simp [solve_ma, hma] at hok
  · rw [solve_ma_ok self problem env hma] at hok
    have hp : r.plan = plan_of env := by
      have := congrArg Prod.fst hok
      simp at this
      rw [← this.1]
    rw [hp]
    unfold plan_of
    by_cases hex : env.plan_file_exists = true <;> simp [hex]

/-- Concrete instantiation of `claim_C4_no_fabricated_plan`: a run whose
plan file is missing yields `plan = none`. -/
theorem claim_C4_witness :
    (⟨Status.UNSOLVABLE_PROVEN, none,
      [⟨LogLevel.INFO, "o"⟩, ⟨LogLevel.ERROR, "e"⟩], "FMAP"⟩
        : PlanGenerationResult).plan = none := by
  exact (claim_C4_no_fabricated_plan ⟨none, none⟩ ⟨true, []⟩
    ⟨"/tmp/t", "/opt/FMAP.jar", false, CommOutcome.completed 0 "o" "e",
      ⟨false, [], [], some 0⟩, false, ⟨0⟩⟩
    ⟨Status.UNSOLVABLE_PROVEN, none,
      [⟨LogLevel.INFO, "o"⟩, ⟨LogLevel.ERROR, "e"⟩], "FMAP"⟩
    ⟨none, none⟩ run_events rfl).2 rfl

/-! ## Claim C5: best-effort plan recovery on timeout -/

/-- C5: when a timeout occurred and the exit code is nonzero, the result is
TIMEOUT and still carries the parsed plan iff the plan file existed at the
pre-classification `os.path.isfile` check. -/
theorem claim_C5_timeout_plan_recovery (self : FMAPsolver) (problem : Problem)
    (env : Env) (po pe : List String) (rv : Option Int)
    (hma : problem.isMultiAgent = true)
    (hobs : observed env = (true, po, pe, rv)) (hrv : rv ≠ some 0) :
    ∃ r : PlanGenerationResult,
      (solve_ma self problem env).1 = Except.ok (r, self)
      ∧ r.status = Status.TIMEOUT
      ∧ r.plan = (if env.plan_file_exists then some env.parsed_plan else none) := by
  rw [solve_ma_ok self problem env hma]
  refine ⟨_, rfl, ?_, rfl⟩
  simp [hobs, hrv]

/-- Concrete instantiation of `claim_C5_timeout_plan_recovery`: a
non-streaming timeout with a plan file present yields a TIMEOUT result
carrying the parsed plan. -/
theorem claim_C5_witness :
    ∃ r : PlanGenerationResult,
      (solve_ma ⟨none, none⟩ ⟨true, [⟨"a1"⟩]⟩
        ⟨"/tmp/t", "/opt/FMAP.jar", false, CommOutcome.timedOut,
          ⟨false, [], [], some 0⟩, true, ⟨7⟩⟩).1
        = Except.ok (r, ⟨none, none⟩)
      ∧ r.status = Status.TIMEOUT
      ∧ r.plan = (if true then some (⟨7⟩ : Plan) else none) := by
  exact claim_C5_timeout_plan_recovery ⟨none, none⟩ ⟨true, [⟨"a1"⟩]⟩
    ⟨"/tmp/t", "/opt/FMAP.jar", false, CommOutcome.timedOut,
      ⟨false, [], [], some 0⟩, true, ⟨7⟩⟩
    [] [] none rfl rfl (by simp)

/-! ## Claim C6: temp directory removed on every exit path -/

/-- C6: for every `solve_ma` call on a multi-agent problem — whatever the
environment, hence on the SOLVED, UNSOLVABLE_PROVEN, INTERNAL_ERROR and
early-return TIMEOUT paths alike — the event trace contains
`removeTempDir`, and it is the final event of the call. -/
theorem claim_C6_tempdir_removed (self : FMAPsolver) (problem : Problem)
    (env : Env) (hma : problem.isMultiAgent = true) :
    Event.removeTempDir ∈ (solve_ma self problem env).2
    ∧ (solve_ma self problem env).2.getLast? = some Event.removeTempDir := by
  rw [solve_ma_ok self problem env hma]
  exact ⟨by simp [run_events], by simp [run_events]⟩

/-- Concrete instantiation of `claim_C6_tempdir_removed` on a timed-out
run. -/
theorem claim_C6_witness :
    Event.removeTempDir ∈ (solve_ma ⟨none, none⟩ ⟨true, []⟩
      ⟨"/tmp/t", "/opt/FMAP.jar", false, CommOutcome.timedOut,
        ⟨false, [], [], some 0⟩, false, ⟨0⟩⟩).2 := by
  exact (claim_C6_tempdir_removed ⟨none, none⟩ ⟨true, []⟩
    ⟨"/tmp/t", "/opt/FMAP.jar", false, CommOutcome.timedOut,
      ⟨false, [], [], some 0⟩, false, ⟨0⟩⟩ rfl).1

/-! ## Claim C7: fail-fast on wrong problem kind -/

/-- C7: a non-multi-agent problem makes `solve_ma` fail with the
`isinstance` assertion before any side effect: the outcome is the
`AssertionError`, never an `ok` result, and the event trace is empty (no
serialization, no subprocess, no temp directory). -/
theorem claim_C7_assert_fail_fast (self : FMAPsolver) (problem : Problem)
    (env : Env) (hma : problem.isMultiAgent = false) :
    solve_ma self problem env = (Except.error "AssertionError", []) := by
  simp [solve_ma, hma]

/-- Concrete instantiation of `claim_C7_assert_fail_fast`. -/
theorem claim_C7_witness :
    solve_ma ⟨none, none⟩ ⟨false, [⟨"a1"⟩]⟩
      ⟨"/tmp/t", "/opt/FMAP.jar", false, CommOutcome.completed 0 "o" "e",
        ⟨false, [], [], some 0⟩, true, ⟨0⟩⟩
      = (Except.error "AssertionError", []) := by
  exact claim_C7_assert_fail_fast ⟨none, none⟩ ⟨false, [⟨"a1"⟩]⟩
    ⟨"/tmp/t", "/opt/FMAP.jar", false, CommOutcome.completed 0 "o" "e",
      ⟨false, [], [], some 0⟩, true, ⟨0⟩⟩ rfl

/-! ## Claim C8: statelessness / idempotence -/

/-- C8: `solve_ma` returns the solver object unchanged, so a second call
with the returned state, the same problem and the same deterministic
environment produces exactly the same result (and the same trace). -/
theorem claim_C8_idempotent (self : FMAPsolver) (problem : Problem)
    (env : Env) (r : PlanGenerationResult) (self2 : FMAPsolver)
    (ev : List Event)
    (hok : solve_ma self problem env = (Except.ok (r, self2), ev)) :
    self2 = self
    ∧ solve_ma self2 problem env = (Except.ok (r, self2), ev) := by
  rcases hma : problem.isMultiAgent with _ | _
  · simp [solve_ma, hma] at hok
  · rw [solve_ma_ok self problem env hma] at hok
    have hself : self2 = self := by
      have := congrArg Prod.fst hok
      simp at this
      rw [← this.2]
    refine ⟨hself, ?_⟩
    rw [hself] at hok ⊢
    rw [solve_ma_ok self problem env hma]
    exact hok

/-- Concrete instantiation of `claim_C8_idempotent`: two identical runs of
a deterministic environment classify identically. -/
theorem claim_C8_witness :
    (⟨none, some "DTG"⟩ : FMAPsolver) = ⟨none, some "DTG"⟩
    ∧ solve_ma ⟨none, some "DTG"⟩ ⟨true, [⟨"a1"⟩]⟩
        ⟨"/tmp/t", "/opt/FMAP.jar", false, CommOutcome.completed 1 "o" "e",
          ⟨false, [], [], some 0⟩, false, ⟨0⟩⟩
      = (Except.ok
          (⟨Status.INTERNAL_ERROR, none,
            [⟨LogLevel.INFO, "o"⟩, ⟨LogLevel.ERROR, "e"⟩], "FMAP"⟩,
           ⟨none, some "DTG"⟩),
         run_events) := by
  exact claim_C8_idempotent ⟨none, some "DTG"⟩ ⟨true, [⟨"a1"⟩]⟩
    ⟨"/tmp/t", "/opt/FMAP.jar", false, CommOutcome.completed 1 "o" "e",
      ⟨false, [], [], some 0⟩, false, ⟨0⟩⟩
    ⟨Status.INTERNAL_ERROR, none,
      [⟨LogLevel.INFO, "o"⟩, ⟨LogLevel.ERROR, "e"⟩], "FMAP"⟩
    ⟨none, some "DTG"⟩ run_events rfl

/-! ## Claim C9: non-streaming timeout leaves returncode `None` -/

/-- C9: in the non-streaming branch, a `communicate` timeout leaves
`process.returncode` still `None`; since Python's `None != 0` holds, the
run is always classified TIMEOUT, and the discarded buffers make both the
INFO and the ERROR log message the empty string. -/
theorem claim_C9_nonstreaming_timeout (self : FMAPsolver) (problem : Problem)
    (env : Env) (hma : problem.isMultiAgent = true)
    (hstream : env.output_stream = false)
    (hcomm : env.comm = CommOutcome.timedOut) :
    (observed env).2.2.2 = none
    ∧ ∃ r : PlanGenerationResult,
        (solve_ma self problem env).1 = Except.ok (r, self)
        ∧ r.status = Status.TIMEOUT
        ∧ r.log_messages = [⟨LogLevel.INFO, ""⟩, ⟨LogLevel.ERROR, ""⟩] := by
  have hobs : observed env = (true, [], [], none) := by
    simp [observed, hstream, hcomm]
  refine ⟨by rw [hobs], ?_⟩
  rw [solve_ma_ok self problem env hma]
  refine ⟨_, rfl, ?_, ?_⟩
  · simp [hobs]
  · simp [logs_of, hobs, String.join]

/-- Concrete instantiation of `claim_C9_nonstreaming_timeout`. -/
theorem claim_C9_witness :
    (observed ⟨"/tmp/t", "/opt/FMAP.jar", false, CommOutcome.timedOut,
      ⟨false, ["x"], ["y"], some 3⟩, false, ⟨0⟩⟩).2.2.2 = none
    ∧ ∃ r : PlanGenerationResult,
        (solve_ma ⟨some "FLEX", none⟩ ⟨true, [⟨"a1"⟩, ⟨"a2"⟩]⟩
          ⟨"/tmp/t", "/opt/FMAP.jar", false, CommOutcome.timedOut,
            ⟨false, ["x"], ["y"], some 3⟩, false, ⟨0⟩⟩).1
          = Except.ok (r, ⟨some "FLEX", none⟩)
        ∧ r.status = Status.TIMEOUT
        ∧ r.log_messages = [⟨LogLevel.INFO, ""⟩, ⟨LogLevel.ERROR, ""⟩] := by
  exact claim_C9_nonstreaming_timeout ⟨some "FLEX", none⟩ ⟨true, [⟨"a1"⟩, ⟨"a2"⟩]⟩
    ⟨"/tmp/t", "/opt/FMAP.jar", false, CommOutcome.timedOut,
      ⟨false, ["x"], ["y"], some 3⟩, false, ⟨0⟩⟩ rfl rfl rfl

/-- C10: the `plan_filename` argument is never used by `_get_cmd_ma` — the
command line is independent of it — and no token of the command built by
`solve_ma` contains the plan path `<tempdir>/plan.txt` as a substring (for
any temp dir, jar path, agent names and parameter values that do not
themselves contain the fragment `plan.txt`). -/
theorem claim_C10_plan_path_not_in_cmd (self : FMAPsolver) (problem : Problem)
    (env : Env) (pf1 pf2 : String)
    (hT0 : env.tempdir ≠ "")
    (hT1 : env.tempdir.data.getLast? ≠ some '/')
    (hTp : ¬ "plan.txt".data <:+: env.tempdir.data)
    (hjar : ¬ "plan.txt".data <:+: env.jar_path.data)
    (hags : ∀ ag ∈ problem.agents, ¬ "plan.txt".data <:+: ag.name.data)
    (hs : ∀ v, self.search_algorithm = some v → ¬ "plan.txt".data <:+: v.data)
    (hh : ∀ v, self.heuristic = some v → ¬ "plan.txt".data <:+: v.data) :
    get_cmd_ma self problem env.jar_path
        (os_path_join env.tempdir "domain.pddl/")
        (os_path_join env.tempdir "problem.pddl/") pf1
      = get_cmd_ma self problem env.jar_path
        (os_path_join env.tempdir "domain.pddl/")
        (os_path_join env.tempdir "problem.pddl/") pf2
    ∧ ∀ tok ∈ cmd_of self problem env,
        ¬ ((os_path_join env.tempdir "plan.txt").data <:+: tok.data) := by
  have e1 : ("/" : String).data = ['/'] := rfl
  have e2 : ("domain.pddl/" : String).data = "domain.pddl".data ++ ['/'] := rfl
  have e3 : ("problem.pddl/" : String).data = "problem.pddl".data ++ ['/'] := rfl
  have hdom : os_path_join env.tempdir "domain.pddl/"
      = env.tempdir ++ "/" ++ "domain.pddl/" :=
    os_path_join_plain _ _ hT0 hT1 (by decide)
  have hprob : os_path_join env.tempdir "problem.pddl/"
      = env.tempdir ++ "/" ++ "problem.pddl/" :=
    os_path_join_plain _ _ hT0 hT1 (by decide)
  have hplan : os_path_join env.tempdir "plan.txt"
      = env.tempdir ++ "/" ++ "plan.txt" :=
    os_path_join_plain _ _ hT0 hT1 (by decide)
  refine ⟨by rw [get_cmd_ma_eq, get_cmd_ma_eq], ?_⟩
  intro tok htok hinf
  have hpat_in : "plan.txt".data <:+: (os_path_join env.tempdir "plan.txt").data := by
    refine ⟨env.tempdir.data ++ ['/'], [], ?_⟩
    rw [hplan]
    simp [String.data_append, e1, List.append_assoc]
  have hpat : "plan.txt".data <:+: tok.data := hpat_in.trans hinf
  rw [cmd_of, get_cmd_ma_eq] at htok
  simp only [List.append_assoc, List.mem_append, List.mem_cons,
    List.not_mem_nil, or_false, List.mem_flatMap] at htok
  rcases htok with (rfl | rfl | rfl) | ⟨ag, hag, htr⟩ | hflag
  · revert hpat; decide
  · revert hpat; decide
  · exact hjar hpat
  · simp only [agent_triple, List.mem_cons, List.not_mem_nil, or_false] at htr
    rcases htr with rfl | rfl | rfl
    · have hd : ((ag.name ++ "_type").data)
          = ag.name.data ++ "_type".data := by
        simp [String.data_append]
      rw [hd] at hpat
      exact pat_not_infix_underscore (by decide) ⟨"type".data, rfl⟩
        (hags ag hag) hpat
    · have hd : (("ma_pddl_" ++ os_path_join env.tempdir "domain.pddl/"
            ++ ag.name ++ "_domain.pddl").data)
          = ("ma_pddl_".data ++ env.tempdir.data)
              ++ '/' :: ("domain.pddl".data
                ++ '/' :: (ag.name.data ++ "_domain.pddl".data)) := by
        rw [hdom]
        simp [String.data_append, e1, e2, List.append_assoc]
      rw [hd] at hpat
      exact pat_not_infix_path_token hTp (hags ag hag) (by decide) (by decide)
        ⟨"domain.pddl".data, rfl⟩ hpat
    · have hd : (("ma_pddl_" ++ os_path_join env.tempdir "problem.pddl/"
            ++ ag.name ++ "_problem.pddl").data)
          = ("ma_pddl_".data ++ env.tempdir.data)
              ++ '/' :: ("problem.pddl".data
                ++ '/' :: (ag.name.data ++ "_problem.pddl".data)) := by
        rw [hprob]
        simp [String.data_append, e1, e3, List.append_assoc]
      rw [hd] at hpat
      exact pat_not_infix_path_token hTp (hags ag hag) (by decide) (by decide)
        ⟨"problem.pddl".data, rfl⟩ hpat
  · rcases hflag with hfs | hfh
    · cases hsv : self.search_algorithm with
      | none =>
          rw [hsv] at hfs
          simp [opt_flag] at hfs
      | some v =>
          rw [hsv] at hfs
          simp only [opt_flag, List.mem_cons, List.not_mem_nil, or_false] at hfs
          rcases hfs with rfl | rfl
          · exact absurd hpat (by decide)
          · exact hs tok hsv hpat
    · cases hhv : self.heuristic with
      | none =>
          rw [hhv] at hfh
          simp [opt_flag] at hfh
      | some w =>
          rw [hhv] at hfh
          simp only [opt_flag, List.mem_cons, List.not_mem_nil, or_false] at hfh
          rcases hfh with rfl | rfl
          · exact absurd hpat (by decide)
          · exact hh tok hhv hpat
/-- Concrete instantiation of `claim_C10_plan_path_not_in_cmd`: with one
agent `a1`, temp dir `/tmp/t` and a concrete jar path, the command is
independent of the `plan_filename` argument and the agent-type token does
not contain `/tmp/t/plan.txt`. -/
theorem claim_C10_witness :
    get_cmd_ma ⟨none, none⟩ ⟨true, [⟨"a1"⟩]⟩ "/opt/FMAP.jar"
        (os_path_join "/tmp/t" "domain.pddl/")
        (os_path_join "/tmp/t" "problem.pddl/") "/tmp/t/plan.txt"
      = get_cmd_ma ⟨none, none⟩ ⟨true, [⟨"a1"⟩]⟩ "/opt/FMAP.jar"
        (os_path_join "/tmp/t" "domain.pddl/")
        (os_path_join "/tmp/t" "problem.pddl/") "ELSEWHERE"
    ∧ ¬ ((os_path_join "/tmp/t" "plan.txt").data <:+: ("a1_type" : String).data) := by
  have h := claim_C10_plan_path_not_in_cmd ⟨none, none⟩ ⟨true, [⟨"a1"⟩]⟩
    ⟨"/tmp/t", "/opt/FMAP.jar", false, CommOutcome.completed 0 "" "",
      ⟨false, [], [], some 0⟩, false, ⟨0⟩⟩
    "/tmp/t/plan.txt" "ELSEWHERE" (by decide) (by decide) (by decide)
    (by decide) (by decide) (fun v hv => nomatch hv) (fun v hv => nomatch hv)
  exact ⟨h.1, h.2 "a1_type" (by decide)⟩

end UpFmap
